import Mathlib

/-
Verification of the local-store data layer of the virtual career counselor
application (src/aws_client.py, class AwsClient), against its natural-language
specification.

Modelling conventions, used throughout:

* The persisted JSON document (data/store.json) is the state.  Every AwsClient
  method begins with `self._read_store()` and ends with `self._write_store(...)`
  (or returns without writing); each method is embedded as a pure function
  `Store → Store × result` where the input is the document on disk at entry and
  the output's first component is the document on disk after the call.  When a
  method calls another method in its body (award_badge calls award_xp, ...),
  the inner call reads the document written most recently, exactly as the
  Python code re-reads the file; the intermediate documents are threaded
  explicitly below (the `_s...` lets), making visible that several methods
  finish by writing the snapshot they took at entry, which discards the
  writes of their inner calls.
* `json.load` produces fresh objects on every read, so the `store` dict and
  the dict returned by `self.get_user(...)` inside one method never alias;
  the embedding keeps them as separate pure values.
* Record fields are typed according to the shape the code itself maintains
  (`create_user`, `award_xp`, ... always write full records); accesses such as
  `store.get('users', [])` or `g.get('xp', 0)` therefore collapse to plain
  field reads.  The one field whose dictionary structure matters to the spec,
  `profile`, is kept as a raw JSON object.
* `datetime.utcnow().isoformat()` and `uuid.uuid4()` are environment inputs;
  they are passed in through a `Ctx` value.  Calendar dates (`date.today()`,
  `utcnow().date().isoformat()`) are modelled as integer day numbers: ISO
  date strings are in bijection with days, so string equality of two stored
  dates is day equality and `(a - b).days` is integer subtraction.  Because
  the code mixes the UTC date (for the stored string) with the local date
  (for the day difference), `Ctx` carries both.
* Python `s1 in s2`, `s.lower()`, `s.upper()` on the ASCII strings involved
  are embedded as substring search / per-character case mapping over the
  strings' character lists.
-/

/-- JSON values, for the parts of a record the code treats as free-form
dictionaries (the user `profile`).  Numbers are integers; no float enters the
profile paths under study. -/
inductive JVal where
  | null
  | bool (b : Bool)
  | int (n : Int)
  | str (s : String)
  | arr (xs : List JVal)
  | obj (fields : List (String × JVal))

/-- A JSON object, as an insertion-ordered key/value list (Python dicts are
insertion ordered; a parsed dict has no duplicate keys). -/
abbrev JObj := List (String × JVal)

/-- Python `d[k]` / `d.get(k)`: the value at the first entry with key `k`. -/
def jget (o : JObj) (k : String) : Option JVal :=
  (o.find? (fun p => p.1 == k)).map (fun p => p.2)

/-- Python `d[k] = v`: replace the value in place if the key is present,
otherwise append the new entry (insertion order). -/
def jset (o : JObj) (k : String) (v : JVal) : JObj :=
  if o.any (fun p => p.1 == k) then
    o.map (fun p => if p.1 == k then (k, v) else p)
  else
    o ++ [(k, v)]

/-- Python `dict.update` / `{**a, **b}`: fold `jset` over the entries of `b`. -/
def jmerge (a b : JObj) : JObj :=
  b.foldl (fun acc p => jset acc p.1 p.2) a

/-- Python `needle in hay` on strings: substring test. -/
def pyIn (needle hay : String) : Bool :=
  hay.data.tails.any (fun t => needle.data.isPrefixOf t)

/-- Python `s.lower()` (the strings involved are ASCII). -/
def strLower (s : String) : String := String.mk (s.data.map Char.toLower)

/-- Python `s.upper()` (the strings involved are ASCII). -/
def strUpper (s : String) : String := String.mk (s.data.map Char.toUpper)

/-- One badge entry in `user['gamification']['badges']`
(shape written by `award_badge`). -/
structure Badge where
  name : String
  icon : String
  description : String
  earnedAt : String

/-- The `user['gamification']` record.  The three methods that default-create
it (`award_xp`, `award_badge`, `update_streak`) spell out different subsets of
these keys, but every key they later read is read with a `.get` default that
agrees with this record, so the typed record collapses the three literals.
`lastLoginDate` stores an ISO date, modelled as a day number (see header). -/
structure Gam where
  xp : Int
  level : Int
  badges : List Badge
  streak : Int
  lastLoginDate : Option Int
  achievements : List JVal

/-- The gamification record the three defaulting methods create:
`{'xp': 0, 'level': 1, 'badges': [], 'streak': 0, 'lastLoginDate': None,
'achievements': []}`. -/
def emptyGam : Gam :=
  { xp := 0, level := 1, badges := [], streak := 0, lastLoginDate := none,
    achievements := [] }

/-- One entry of `user['referrals']['rewards']` (shape written by
`use_referral_code`). -/
structure Reward where
  referredUserId : String
  rewardedAt : String

/-- The `user['referrals']` record (shape written by `create_referral_code`). -/
structure Referrals where
  code : String
  count : Int
  rewards : List Reward

/-- A user record.  `create_user` writes userId/email/passwordHash/profile/
createdAt; `save_user_profile` can also create a record holding only
userId/profile/updatedAt, so the credential fields are optional. -/
structure User where
  userId : String
  email : Option String
  passwordHash : Option String
  profile : JObj
  createdAt : Option String
  updatedAt : Option String
  gamification : Option Gam
  referrals : Option Referrals

/-- An activity record (shape written by `create_activities_for_role`;
`grade_quiz` adds `lastScore`/`completedAt`). -/
structure Activity where
  activityId : String
  userId : String
  title : String
  detail : String
  level : String
  role : String
  quizVariant : Int
  status : String
  createdAt : String
  lastScore : Option Int
  completedAt : Option String

/-- A notification record (shape written by `create_notification`). -/
structure Notif where
  notificationId : String
  userId : String
  ntype : String
  title : String
  message : String
  link : Option String
  metadata : JObj
  read : Bool
  createdAt : String

/-- The persisted store document, with the collections the claims touch.
Missing collections read as `[]` in the code (`store.get('users', [])`,
`store.get('activities', [])`, ...), so the typed document keeps them total. -/
structure Store where
  users : List User
  roadmaps : List JVal
  activities : List Activity
  notifications : List Notif

/-- Environment inputs drawn during one API call: `datetime.utcnow()`
timestamps (as an opaque string), the successive `uuid.uuid4()` results, and
today's calendar date as seen in UTC (`datetime.utcnow().date()`) and in the
server's local timezone (`datetime.date.today()`), as day numbers. -/
structure Ctx where
  now : String
  uuid : Nat → String
  todayUtc : Int
  todayLocal : Int

/-- Embeds `_read_store` at the raw document level: `json.load` succeeding yields the
parsed document; a missing, unreadable or unparseable file raises inside the
`try`, and the bare `except` returns the literal `{'users': [], 'roadmaps': []}`.
The file state is `none` when any of those failures occurs. -/
def readStore : Option JObj → JObj
  | some doc => doc
  | none => [("users", JVal.arr []), ("roadmaps", JVal.arr [])]

/-- Embeds `get_user`: first user record whose `userId` matches. -/
def getUser (s : Store) (userId : String) : Option User :=
  s.users.find? (fun u => u.userId == userId)

/-- Embeds `get_user_by_email`: first user record whose `email` matches. -/
def getUserByEmail (s : Store) (email : String) : Option User :=
  s.users.find? (fun u => u.email == some email)

/-- Embeds `create_user`: builds the new record, drops every stored user with the
same email, appends the new record, writes.  There is no rejection path. -/
def createUser (ctx : Ctx) (s : Store) (email password : String)
    (profile : JObj) : Store × User :=
  let user : User :=
    { userId := ctx.uuid 0, email := some email, passwordHash := some password,
      profile := profile, createdAt := some ctx.now, updatedAt := none,
      gamification := none, referrals := none }
  ({ s with users := s.users.filter (fun u => !(u.email == some email)) ++ [user] },
   user)

/-- The `item` argument of `save_user_profile`, shaped as at its only call
site (app.py, the profile-save route):
`{'userId': ..., 'profile': <dict from the request>, 'updatedAt': ...}`. -/
structure ProfileItem where
  userId : String
  profile : JObj
  updatedAt : String

/-- Embeds `save_user_profile` (local-store path; the DynamoDB branch is taken only
when a live AWS table accepts the write and is outside the store).  The loop
keeps every user with a different `userId` and remembers the last one that
matches; `merged` is the matching record updated with the item's keys, with
the `profile` value dict-merged one level (both sides are dicts here, so the
`isinstance` guards pass); the merged record is appended and the store
written. -/
def saveUserProfile (s : Store) (item : ProfileItem) : Store :=
  let existing := (s.users.filter (fun u => u.userId == item.userId)).getLast?
  let others := s.users.filter (fun u => !(u.userId == item.userId))
  match existing with
  | none =>
      let merged : User :=
        { userId := item.userId, email := none, passwordHash := none,
          profile := item.profile, createdAt := none,
          updatedAt := some item.updatedAt, gamification := none,
          referrals := none }
      { s with users := others ++ [merged] }
  | some u =>
      let merged : User :=
        { u with userId := item.userId,
                 profile := jmerge u.profile item.profile,
                 updatedAt := some item.updatedAt }
      { s with users := others ++ [merged] }

/-- Embeds `create_notification` (store effect; the optional SNS publish does not
touch the store).  Appends one notification record and writes. -/
def createNotification (ctx : Ctx) (s : Store) (userId ntype title message : String)
    (link : Option String) : Store :=
  { s with notifications := s.notifications ++
      [{ notificationId := ctx.uuid 0, userId := userId, ntype := ntype,
         title := title, message := message, link := link, metadata := [],
         read := false, createdAt := ctx.now }] }

/-- Result of `award_xp`: the document after the call, the returned
gamification record (`None` when the user does not exist), and whether the
level-up notification was issued. -/
structure XpResult where
  store : Store
  gam : Option Gam
  notified : Bool

/-- Embeds `award_xp`: adds `amount` to the user's xp, recomputes
`level = xp // 100 + 1` (Python floor division, `Int.fdiv`), issues a level-up
notification when the level increased, then writes the snapshot taken at
entry with the updated user record.  The notification was persisted by
`create_notification`'s own write, but the final write is of the entry
snapshot (`s`), which does not contain it — so it is discarded again; the
threading below keeps that intermediate document in `_s1` to mirror the call
order. -/
def awardXp (ctx : Ctx) (s : Store) (userId : String) (amount : Int) : XpResult :=
  match getUser s userId with
  | none => { store := s, gam := none, notified := false }
  | some user =>
      let g0 := user.gamification.getD emptyGam
      let xp1 := g0.xp + amount
      let newLevel := Int.fdiv xp1 100 + 1
      let oldLevel := g0.level
      let g1 : Gam := { g0 with xp := xp1, level := newLevel }
      let _s1 : Store :=
        if oldLevel < newLevel then
          createNotification ctx s userId "achievement" "Level Up! "
            ("You reached level " ++ toString newLevel ++ "! Keep up the great work!")
            (some "/dashboard")
        else s
      let user1 : User := { user with gamification := some g1, updatedAt := some ctx.now }
      { store := { s with users := s.users.filter (fun u => !(u.userId == userId)) ++ [user1] },
        gam := some g1,
        notified := decide (oldLevel < newLevel) }

/-- Embeds `award_badge`: returns `False` without writing when the user is missing or
already holds a badge of that name; otherwise appends the badge, calls
`award_xp(user_id, 50, ...)` and `create_notification(...)` (each of which
writes the then-current document), and finally writes the snapshot taken at
entry with only the badge appended — which overwrites the inner calls'
writes. -/
def awardBadge (ctx : Ctx) (s : Store) (userId badgeName badgeIcon : String)
    (description : Option String) : Store × Bool :=
  match getUser s userId with
  | none => (s, false)
  | some user =>
      let g0 := user.gamification.getD emptyGam
      let badges := g0.badges
      if badges.any (fun b => b.name == badgeName) then
        (s, false)
      else
        let badge : Badge :=
          { name := badgeName, icon := badgeIcon,
            description := description.getD ("Achievement: " ++ badgeName),
            earnedAt := ctx.now }
        let user1 : User :=
          { user with gamification := some { g0 with badges := badges ++ [badge] },
                      updatedAt := some ctx.now }
        let _s1 := (awardXp ctx s userId 50).store
        let _s2 := createNotification ctx _s1 userId "achievement"
          ("New Badge Earned! " ++ badgeIcon)
          ("You earned the \"" ++ badgeName ++ "\" badge!") (some "/dashboard")
        ({ s with users := s.users.filter (fun u => !(u.userId == userId)) ++ [user1] },
         true)

/-- Result of `update_streak`: the document after the call, the returned
gamification record, and the streak value for which a milestone badge award
was triggered (`none` when no `award_badge` call was made). -/
structure StreakResult where
  store : Store
  gam : Option Gam
  badgeStreak : Option Int

/-- Embeds `update_streak`: compares the stored last-login date with today's UTC
date; same stored date returns without writing; otherwise the streak is
incremented when the local-date difference is exactly 1, reset to 1 when it
is greater than 1, set to 1 on a first-ever login, and on any other
difference the method returns without writing.  On the writing path it calls
`award_xp(user_id, 10, ...)` and, at streak 7/30/100, `award_badge(...)` —
both write the then-current document — and then writes the snapshot taken at
entry with only the user's streak fields updated, overwriting those inner
writes. -/
def updateStreak (ctx : Ctx) (s : Store) (userId : String) : StreakResult :=
  match getUser s userId with
  | none => { store := s, gam := none, badgeStreak := none }
  | some user =>
      let g0 := user.gamification.getD emptyGam
      let today := ctx.todayUtc
      let finish := fun (streakVal : Int) =>
        let g1 : Gam := { g0 with streak := streakVal, lastLoginDate := some today }
        let user1 : User := { user with gamification := some g1, updatedAt := some ctx.now }
        let _s1 := (awardXp ctx s userId 10).store
        let milestone := streakVal == 7 || streakVal == 30 || streakVal == 100
        let _s2 :=
          if milestone then
            (awardBadge ctx _s1 userId (toString streakVal ++ " Day Streak") ""
              (some ("Logged in for " ++ toString streakVal ++ " consecutive days!"))).1
          else _s1
        { store := { s with users := s.users.filter (fun u => !(u.userId == userId)) ++ [user1] },
          gam := some g1,
          badgeStreak := if milestone then some streakVal else none }
      match g0.lastLoginDate with
      | some lastLogin =>
          if lastLogin == today then
            { store := s, gam := some g0, badgeStreak := none }
          else
            let d := ctx.todayLocal - lastLogin
            if d == 1 then finish (g0.streak + 1)
            else if d > 1 then finish 1
            else { store := s, gam := some g0, badgeStreak := none }
      | none => finish 1

/-- Embeds `use_referral_code`: finds the first user whose `referrals.code` equals
the upper-cased argument; when none exists, returns `False` without writing.
Otherwise it increments that user's referral count and appends a reward entry,
awards 100 xp to the referrer and 50 xp to the new user (each `award_xp`
writes the then-current document), possibly awards a badge at count ≥ 5, and
then writes the snapshot taken at entry with only the referrer's referral
record updated — overwriting the xp (and badge) writes. -/
def useReferralCode (ctx : Ctx) (s : Store) (newUserId code : String) : Store × Bool :=
  let matcher := fun (u : User) =>
    match u.referrals with
    | some r => r.code == strUpper code
    | none => false
  match s.users.find? matcher with
  | none => (s, false)
  | some user =>
      match user.referrals with
      | none => (s, false)
      | some r =>
          let r1 : Referrals :=
            { r with count := r.count + 1,
                     rewards := r.rewards ++ [{ referredUserId := newUserId, rewardedAt := ctx.now }] }
          let user1 : User := { user with referrals := some r1 }
          let _s1 := (awardXp ctx s user.userId 100).store
          let _s2 := (awardXp ctx _s1 newUserId 50).store
          let _s3 :=
            if r1.count ≥ 5 then
              (awardBadge ctx _s2 user.userId "Super Connector" ""
                (some "Referred 5+ friends!")).1
            else _s2
          ({ s with users := s.users.filter (fun u => !(u.userId == user.userId)) ++ [user1] },
           true)

/-- Embeds `complete_activity`: marks every activity matching both ids as completed;
writes only when at least one matched, and returns whether any did. -/
def completeActivity (ctx : Ctx) (s : Store) (userId activityId : String) : Store × Bool :=
  let isMatch := fun (a : Activity) => a.userId == userId && a.activityId == activityId
  if s.activities.any isMatch then
    ({ s with activities := s.activities.map (fun a =>
        if isMatch a then { a with status := "completed", completedAt := some ctx.now }
        else a) },
     true)
  else
    (s, false)
/-- One quiz question.  Grading reads only the question's `id` and its
correct `answer` index, so the embedded dataset keeps those two fields; the
`text` and `choices` strings of the source are omitted as inert. -/
structure Question where
  id : String
  answer : Int

/-- A quiz: its title and questions. -/
structure Quiz where
  title : String
  questions : List Question

/-- Builds a question list from the answer indices.  In the source every quiz
lists its questions with ids literally `'q1', 'q2', ...` in order, so the ids
are reconstructed from the position. -/
def mkQuestions (answers : List Int) : List Question :=
  answers.enum.map (fun p => { id := "q" ++ toString (p.1 + 1), answer := p.2 })

/-- The quiz dataset of `_sample_quiz`: an insertion-ordered association list
role -> level -> quiz variants, with each variant's title and answer
indices. -/
def quizzesData : List (String × List (String × List Quiz)) := [
  ("teacher", [
    ("basic", [
      { title := "Teaching Foundations Quiz - Set 1", questions := mkQuestions [1, 1, 1, 1, 1] },
      { title := "Teaching Foundations Quiz - Set 2", questions := mkQuestions [1, 1, 1, 1, 1] },
      { title := "Teaching Foundations Quiz - Set 3", questions := mkQuestions [1, 1, 1, 1, 1] },
      { title := "Teaching Foundations Quiz - Set 4", questions := mkQuestions [1, 1, 1, 1, 1] },
      { title := "Teaching Foundations Quiz - Set 5", questions := mkQuestions [1, 1, 1, 1, 1] }
    ]),
    ("intermediate", [
      { title := "Teaching Strategies for Diverse Learners - Set 1", questions := mkQuestions [1, 1, 1, 1] },
      { title := "Teaching Strategies for Diverse Learners - Set 2", questions := mkQuestions [1, 1, 1, 1] },
      { title := "Teaching Strategies for Diverse Learners - Set 3", questions := mkQuestions [1, 1, 1, 1] },
      { title := "Teaching Strategies for Diverse Learners - Set 4", questions := mkQuestions [1, 1, 1, 1] },
      { title := "Teaching Strategies for Diverse Learners - Set 5", questions := mkQuestions [1, 1, 1, 1] }
    ]),
    ("advanced", [
      { title := "Advanced Pedagogical Practices - Set 1", questions := mkQuestions [1, 1, 1, 1] },
      { title := "Advanced Pedagogical Practices - Set 2", questions := mkQuestions [1, 1, 1, 1] },
      { title := "Advanced Pedagogical Practices - Set 3", questions := mkQuestions [1, 1, 1, 1] }
    ])
  ]),
  ("software engineer", [
    ("basic", [
      { title := "Software Development Fundamentals - Set 1", questions := mkQuestions [0, 1, 0, 1, 1, 1] },
      { title := "Software Development Fundamentals - Set 2", questions := mkQuestions [1, 1, 1, 1, 1, 1] },
      { title := "Software Development Fundamentals - Set 3", questions := mkQuestions [1, 1, 0, 1, 0, 1] },
      { title := "Software Development Fundamentals - Set 4", questions := mkQuestions [1, 1, 1, 1, 1, 1] },
      { title := "Software Development Fundamentals - Set 5", questions := mkQuestions [0, 1, 1, 1, 1, 1] }
    ]),
    ("intermediate", [
      { title := "Intermediate Software Engineering - Set 1", questions := mkQuestions [1, 1, 1, 1, 1] },
      { title := "Intermediate Software Engineering - Set 2", questions := mkQuestions [1, 1, 1, 1, 1] },
      { title := "Intermediate Software Engineering - Set 3", questions := mkQuestions [1, 1, 1, 1, 1] },
      { title := "Intermediate Software Engineering - Set 4", questions := mkQuestions [1, 1, 1, 1, 1] },
      { title := "Intermediate Software Engineering - Set 5", questions := mkQuestions [1, 1, 1, 1, 1] }
    ]),
    ("advanced", [
      { title := "Advanced Software Architecture - Set 1", questions := mkQuestions [1, 1, 1, 1] },
      { title := "Advanced Software Architecture - Set 2", questions := mkQuestions [1, 1, 1, 1] },
      { title := "Advanced Software Architecture - Set 3", questions := mkQuestions [1, 1, 1, 1] }
    ])
  ]),
  ("data analyst", [
    ("basic", [
      { title := "Data Analysis Fundamentals - Set 1", questions := mkQuestions [1, 1, 1, 1, 1, 1] },
      { title := "Data Analysis Fundamentals - Set 2", questions := mkQuestions [1, 1, 1, 1, 1, 1] },
      { title := "Data Analysis Fundamentals - Set 3", questions := mkQuestions [1, 1, 1, 1, 1, 1] },
      { title := "Data Analysis Fundamentals - Set 4", questions := mkQuestions [1, 1, 1, 1, 1, 1] },
      { title := "Data Analysis Fundamentals - Set 5", questions := mkQuestions [1, 1, 1, 1, 1, 1] }
    ]),
    ("intermediate", [
      { title := "Intermediate Data Analytics - Set 1", questions := mkQuestions [1, 1, 1, 1, 1] },
      { title := "Intermediate Data Analytics - Set 2", questions := mkQuestions [1, 1, 1, 1, 1] },
      { title := "Intermediate Data Analytics - Set 3", questions := mkQuestions [1, 1, 1, 1, 1] },
      { title := "Intermediate Data Analytics - Set 4", questions := mkQuestions [1, 1, 1, 1, 1] },
      { title := "Intermediate Data Analytics - Set 5", questions := mkQuestions [1, 1, 1, 1, 1] }
    ]),
    ("advanced", [
      { title := "Advanced Data Science - Set 1", questions := mkQuestions [1, 1, 1, 1] },
      { title := "Advanced Data Science - Set 2", questions := mkQuestions [1, 1, 1, 1] },
      { title := "Advanced Data Science - Set 3", questions := mkQuestions [1, 1, 1, 1] }
    ])
  ]),
  ("ux designer", [
    ("basic", [
      { title := "UX Design Fundamentals - Set 1", questions := mkQuestions [0, 1, 1, 1, 1, 1] },
      { title := "UX Design Fundamentals - Set 2", questions := mkQuestions [1, 1, 1, 1, 1, 1] },
      { title := "UX Design Fundamentals - Set 3", questions := mkQuestions [1, 1, 1, 1, 1, 1] },
      { title := "UX Design Fundamentals - Set 4", questions := mkQuestions [1, 1, 1, 1, 1, 1] },
      { title := "UX Design Fundamentals - Set 5", questions := mkQuestions [1, 1, 1, 1, 1, 1] }
    ]),
    ("intermediate", [
      { title := "UX Strategy & Usability - Set 1", questions := mkQuestions [1, 1, 1, 1, 1] },
      { title := "UX Strategy & Usability - Set 2", questions := mkQuestions [1, 1, 1, 1, 1] },
      { title := "UX Strategy & Usability - Set 3", questions := mkQuestions [1, 1, 1, 1, 1] },
      { title := "UX Strategy & Usability - Set 4", questions := mkQuestions [1, 1, 1, 1, 1] },
      { title := "UX Strategy & Usability - Set 5", questions := mkQuestions [1, 1, 1, 1, 1] }
    ]),
    ("advanced", [
      { title := "Advanced UX & Design Systems - Set 1", questions := mkQuestions [1, 1, 1, 1] },
      { title := "Advanced UX & Design Systems - Set 2", questions := mkQuestions [1, 1, 1, 1] },
      { title := "Advanced UX & Design Systems - Set 3", questions := mkQuestions [1, 1, 1, 1] }
    ])
  ]),
  ("product manager", [
    ("basic", [
      { title := "Product Management Basics - Set 1", questions := mkQuestions [1, 1, 1, 1, 1, 1] },
      { title := "Product Management Basics - Set 2", questions := mkQuestions [1, 1, 1, 1, 1, 1] },
      { title := "Product Management Basics - Set 3", questions := mkQuestions [1, 1, 1, 1, 1, 1] },
      { title := "Product Management Basics - Set 4", questions := mkQuestions [1, 1, 1, 1, 1, 1] },
      { title := "Product Management Basics - Set 5", questions := mkQuestions [1, 1, 1, 1, 1, 1] }
    ]),
    ("intermediate", [
      { title := "Product Strategy & Metrics - Set 1", questions := mkQuestions [1, 1, 1, 1, 1] },
      { title := "Product Strategy & Metrics - Set 2", questions := mkQuestions [1, 1, 1, 1, 1] },
      { title := "Product Strategy & Metrics - Set 3", questions := mkQuestions [1, 1, 1, 1, 1] },
      { title := "Product Strategy & Metrics - Set 4", questions := mkQuestions [1, 1, 1, 1, 1] },
      { title := "Product Strategy & Metrics - Set 5", questions := mkQuestions [1, 1, 1, 1, 1] }
    ]),
    ("advanced", [
      { title := "Advanced Product Leadership - Set 1", questions := mkQuestions [1, 1, 1, 1] },
      { title := "Advanced Product Leadership - Set 2", questions := mkQuestions [1, 1, 1, 1] },
      { title := "Advanced Product Leadership - Set 3", questions := mkQuestions [1, 1, 1, 1] }
    ])
  ])
]

/-- Python `str.title()` (used in the default quiz's title): the first letter
of every alphabetic run is uppercased, the rest lowercased (ASCII). -/
def pyTitle (s : String) : String :=
  String.mk (s.data.foldl (fun (acc : List Char × Bool) c =>
    let isAl := c.isAlpha
    let c1 := if isAl then (if acc.2 then c.toLower else c.toUpper) else c
    (acc.1 ++ [c1], isAl)) ([], false)).1

/-- The generic fallback quiz of `_sample_quiz` (returned when no role key
matches): five questions with answer indices 0, 0, 1, 1, 1. -/
def defaultQuiz (role level : String) (variant : Int) : Quiz :=
  { title := pyTitle role ++ " - " ++ pyTitle level ++ " Quiz (Variant " ++
      toString variant ++ ")",
    questions := mkQuestions [0, 0, 1, 1, 1] }

/-- Embeds `quiz_list[(variant - 1) % len(quiz_list)]`: Python `%` with a positive
modulus is `Int.emod`.  Every variant list in the dataset is non-empty (for an
empty one the source would raise ZeroDivisionError); the dummy fallback quiz
is unreachable there. -/
def pickVariant (ql : List Quiz) (variant : Int) : Quiz :=
  ql.getD ((Int.emod (variant - 1) (Int.ofNat ql.length)).toNat)
    { title := "", questions := [] }

/-- The resolution core of `_sample_quiz`, for already-normalized arguments:
the first dataset role key that is a substring of the role or contains it
selects the role; the requested level or else the role's first available
level selects the variant list; with no matching role key (or a role with no
levels) the generic fallback quiz is returned. -/
def resolveQuiz (role level : String) (variant : Int) : Quiz :=
  match quizzesData.find? (fun p => pyIn p.1 role || pyIn role p.1) with
  | some rl =>
      match rl.2.find? (fun lv => lv.1 == level) with
      | some lv => pickVariant lv.2 variant
      | none =>
          match rl.2.head? with
          | some lv0 => pickVariant lv0.2 variant
          | none => defaultQuiz role level variant
  | none => defaultQuiz role level variant

/-- Embeds `_sample_quiz`: normalizes role/level (falsy arguments default,
then lowercase; variant 0/None becomes 1), then resolves role key, level and
cycled variant through `resolveQuiz`. -/
def sampleQuiz (role0 level0 : String) (variant0 : Int) : Quiz :=
  resolveQuiz (strLower (if role0 == "" then "default" else role0))
    (strLower (if level0 == "" then "basic" else level0))
    (if variant0 == 0 then 1 else variant0)

/-- Embeds `get_quiz_for_activity`: finds the first activity with the given id and
resolves its quiz from role, level and stored variant (falsy role/level
default before the call, as in the source). -/
def getQuizForActivity (s : Store) (activityId : String) : Option (Activity × Quiz) :=
  match s.activities.find? (fun a => a.activityId == activityId) with
  | none => none
  | some a =>
      let role := if a.role == "" then "default" else a.role
      let level := if a.level == "" then "basic" else a.level
      some (a, sampleQuiz role level a.quizVariant)

/-- The grading test of one question: its id appears in the answers map and
the mapped index equals the question's correct answer
(`qid in answers_map and int(answers_map[qid]) == int(q.get('answer', -1))`). -/
def answeredRight (answersMap : List (String × Int)) (q : Question) : Bool :=
  match answersMap.find? (fun p => p.1 == q.id) with
  | some p => p.2 == q.answer
  | none => false

/-- The dict `grade_quiz` returns: `{'score': ..., 'total': ...}`. -/
structure GradeResult where
  score : Nat
  total : Nat

/-- Embeds `grade_quiz`: counts the questions whose id appears in the answers map
with the correct answer index, computes
`score = int((correct / max(1, len(questions))) * 100)` — for the question
counts the dataset produces (4, 5 or 6, and the `max` guard for 0) the float
computation and truncation equal exact floor division `100 * correct / total`
— then stamps score, pass/fail status (threshold 70) and completion time on
every stored activity with the graded id, and writes.  The answers map is
modelled as an association list of integer answer indices (the `int(...)`
coercions of the source are identities on integers). -/
def gradeQuiz (ctx : Ctx) (s : Store) (activityId : String)
    (answersMap : List (String × Int)) : Store × Option GradeResult :=
  match getQuizForActivity s activityId with
  | none => (s, none)
  | some (_, quiz) =>
      let questions := quiz.questions
      let correct := questions.countP (answeredRight answersMap)
      let score := (100 * correct) / max 1 questions.length
      let activities := s.activities.map (fun a =>
        if a.activityId == activityId then
          { a with lastScore := some (Int.ofNat score),
                   status := if 70 ≤ score then "completed" else "pending",
                   completedAt := some ctx.now }
        else a)
      ({ s with activities := activities },
       some { score := score, total := questions.length })

/-- One entry of the task templates in `create_activities_for_role`. -/
structure RoleTask where
  title : String
  detail : String

/-- The role names `create_activities_for_role` normalizes against. -/
def quizRolesList : List String :=
  ["teacher", "software engineer", "data analyst", "ux designer",
   "product manager", "marketing", "graphic designer"]

/-- Python `s.split()`: split on whitespace, dropping empty pieces. -/
def pySplit (s : String) : List String :=
  ((s.data.splitOn ' ').filter (fun w => !w.isEmpty)).map String.mk

/-- The role normalization of `create_activities_for_role`: the first listed
role one of whose words occurs in the (lowercased) requested role; otherwise
the requested role itself.  (The source's `quiz_role.split()[0] in role`
disjunct is subsumed by the `any(...)` disjunct over all words.) -/
def roleNormalized (role : String) : String :=
  match quizRolesList.find? (fun qr =>
      let ws := pySplit qr
      pyIn (ws.headD "") role || ws.any (fun w => pyIn w role)) with
  | some qr => qr
  | none => role

/-- The profession-specific task templates of `create_activities_for_role`
(the `if/elif` chain over substrings of the lowercased role, in source
order).  Every template's `detail` is non-empty, so the source's
`task.get('detail') or task.get('description')` reads `detail`. -/
def tasksForRole (role : String) : List RoleTask :=
  if pyIn "teacher" role then
    [{ title := "Read curriculum guides", detail := "Study current curriculum standards for your grade" },
     { title := "Prepare 3 lesson plans", detail := "Create scaffolded lesson plans with assessments" },
     { title := "Join teacher forum", detail := "Participate in a local teacher community forum" }]
  else if pyIn "data" role || pyIn "analyst" role then
    [{ title := "Learn SQL", detail := "Complete SQL exercises on filtering and aggregation" },
     { title := "Project: Data analysis", detail := "Analyze a dataset and publish findings" },
     { title := "Build portfolio", detail := "Create a GitHub repo with notebooks and visuals" }]
  else if pyIn "ux" role || pyIn "designer" role || pyIn "graphic" role then
    [{ title := "User research", detail := "Run a small user interview study" },
     { title := "Design case study", detail := "Document a design process and outcomes" },
     { title := "Prototype", detail := "Build a clickable prototype in Figma" }]
  else if pyIn "software" role || pyIn "engineer" role || pyIn "developer" role || pyIn "programmer" role then
    [{ title := "Build a project", detail := "Create a full-stack application" },
     { title := "Contribute to open source", detail := "Submit PRs to an open source project" },
     { title := "System design", detail := "Practice architecture and scalability design" }]
  else if pyIn "product" role || pyIn "manager" role || pyIn "pm" role then
    [{ title := "Define product strategy", detail := "Create a product strategy document" },
     { title := "Build roadmap", detail := "Develop a prioritized product roadmap" },
     { title := "User research", detail := "Conduct interviews and user surveys" }]
  else if pyIn "market" role || pyIn "seo" role then
    [{ title := "Content strategy", detail := "Plan a content marketing calendar" },
     { title := "Campaign analysis", detail := "Analyze metrics and ROI of campaigns" },
     { title := "Build audience", detail := "Grow social media presence or email list" }]
  else if pyIn "doctor" role || pyIn "nurse" role || pyIn "medical" role || pyIn "healthcare" role then
    [{ title := "Study medical protocols", detail := "Learn current treatment guidelines" },
     { title := "Case study analysis", detail := "Analyze and present clinical case studies" },
     { title := "Patient care simulation", detail := "Participate in training scenarios" }]
  else if pyIn "account" role || pyIn "finance" role || pyIn "cfo" role || pyIn "analyst" role then
    [{ title := "Financial modeling", detail := "Build spreadsheet models for forecasting" },
     { title := "Audit preparation", detail := "Learn audit and compliance procedures" },
     { title := "Tax planning", detail := "Study tax strategies and regulations" }]
  else if (pyIn "engineer" role && pyIn "civil" role) || pyIn "mechanical" role || pyIn "electrical" role then
    [{ title := "CAD design", detail := "Create engineering drawings and models" },
     { title := "Project analysis", detail := "Analyze structural and systems requirements" },
     { title := "Technical documentation", detail := "Write specifications and technical reports" }]
  else
    [{ title := "Foundational reading",
       detail := "Read key resources about " ++ (if role == "" then "target" else role) },
     { title := "Mini project", detail := "Complete a small project relevant to your goal" },
     { title := "Join community", detail := "Find an online community for mentorship" }]

/-- Embeds `create_activities_for_role`: lowercases the role, resolves the normalized
role and task templates, deletes the user's pending activities while keeping
every other stored activity, appends 15 fresh pending activities (5 quiz
variants for each of the levels basic/intermediate/advanced, the task
template indexed by the level), writes, and returns the user's activities in
the written store. -/
def createActivitiesForRole (ctx : Ctx) (s : Store) (userId role0 : String) :
    Store × List Activity :=
  let role := strLower role0
  let roleN := roleNormalized role
  let tasks := tasksForRole role
  let kept := s.activities.filter (fun a => !(a.userId == userId && a.status == "pending"))
  let practice : RoleTask := { title := "Practice", detail := "Continue learning" }
  let news := (List.enum ["basic", "intermediate", "advanced"]).flatMap (fun li =>
    ([1, 2, 3, 4, 5] : List Nat).map (fun quizNum =>
      let task := if li.1 < tasks.length then tasks.getD li.1 practice
                  else (tasks.getLast?).getD practice
      { activityId := ctx.uuid (li.1 * 5 + (quizNum - 1)),
        userId := userId,
        title := task.title ++ " - Quiz " ++ toString quizNum,
        detail := task.detail,
        level := li.2,
        role := roleN,
        quizVariant := Int.ofNat quizNum,
        status := "pending",
        createdAt := ctx.now,
        lastScore := none,
        completedAt := none }))
  let activities := kept ++ news
  ({ s with activities := activities },
   activities.filter (fun a => a.userId == userId))

/-- The merge the specification describes for profile updates, written from
the spec's words for comparison with `saveUserProfile`: keys present in the
update overwrite, keys omitted persist, and nested mappings are merged
recursively (a deep merge). -/
def claimedDeepMerge : JObj → JObj → JObj
  | a, [] => a
  | a, (k, v) :: rest =>
      match v, jget a k with
      | JVal.obj bo, some (JVal.obj ao) =>
          claimedDeepMerge (jset a k (JVal.obj (claimedDeepMerge ao bo))) rest
      | _, _ => claimedDeepMerge (jset a k v) rest
termination_by _ b => sizeOf b

/-- Rounding `100 * c / t` to the nearest integer — the `round` of the claim
about quiz scores (ties round up; no tie occurs at the inputs cited). -/
def roundNearest (c t : Nat) : Nat := (200 * c + t) / (2 * t)

/-- A fixed environment for the concrete instances below. -/
def ctx0 : Ctx :=
  { now := "T0", uuid := fun n => "id" ++ toString n,
    todayUtc := 20000, todayLocal := 20000 }

/-- An empty store document. -/
def emptyStore : Store :=
  { users := [], roadmaps := [], activities := [], notifications := [] }

/-- A pending software-engineer basic activity, variant 1 (its quiz has six
questions). -/
def seAct : Activity :=
  { activityId := "a1", userId := "u1", title := "Build a project - Quiz 1",
    detail := "Create a full-stack application", level := "basic",
    role := "software engineer", quizVariant := 1, status := "pending",
    createdAt := "T", lastScore := none, completedAt := none }

/-- A freshly signed-up user without gamification state. -/
def freshUser : User :=
  { userId := "u1", email := some "a@b.c", passwordHash := some "pw",
    profile := [], createdAt := some "T", updatedAt := none,
    gamification := none, referrals := none }

/-- Store holding `freshUser` and the pending activity `seAct`. -/
def seStore : Store :=
  { users := [freshUser], roadmaps := [], activities := [seAct], notifications := [] }

/-- First badge award to the fresh user (C2 scenario). -/
def badgeOnce : Store × Bool := awardBadge ctx0 seStore "u1" "First Steps" "" none

/-- Second award of the same badge name, on the document the first award
wrote (C2 scenario). -/
def badgeTwice : Store × Bool := awardBadge ctx0 badgeOnce.1 "u1" "First Steps" "" none

/-- A user holding a referral code and 0 xp. -/
def refUser : User :=
  { userId := "r1", email := some "r@b.c", passwordHash := some "pw",
    profile := [], createdAt := some "T", updatedAt := none,
    gamification := some emptyGam,
    referrals := some { code := "ABCD1234", count := 0, rewards := [] } }

/-- A referee user with 0 xp. -/
def refereeUser : User :=
  { userId := "n1", email := some "n@b.c", passwordHash := some "pw",
    profile := [], createdAt := some "T", updatedAt := none,
    gamification := some emptyGam, referrals := none }

/-- Store holding the referrer and the referee (C7 scenario). -/
def refStore : Store :=
  { users := [refUser, refereeUser], roadmaps := [], activities := [], notifications := [] }

/-- Result of redeeming the valid code (written in lowercase; the method
uppercases it) for the referee (C7 scenario). -/
def refRedeem : Store × Bool := useReferralCode ctx0 refStore "n1" "abcd1234"

/-- A user whose profile holds a nested mapping under key `a` (C5 scenario). -/
def nestedUser : User :=
  { userId := "u1", email := some "a@b.c", passwordHash := some "pw",
    profile := [("a", JVal.obj [("x", JVal.int 1)])], createdAt := some "T",
    updatedAt := none, gamification := none, referrals := none }

/-- Store holding `nestedUser` (C5 scenario). -/
def nestedStore : Store :=
  { users := [nestedUser], roadmaps := [], activities := [], notifications := [] }

/-- A profile update whose key `a` holds a different nested mapping
(C5 scenario). -/
def nestedItem : ProfileItem :=
  { userId := "u1", profile := [("a", JVal.obj [("y", JVal.int 2)])], updatedAt := "T1" }

/-- Gamification state one day short of the 7-day streak milestone: last
login on the day before the date in `ctx0`, streak 6, xp 5 (C4 scenario). -/
def streakGam : Gam :=
  { emptyGam with streak := 6, lastLoginDate := some 19999, xp := 5 }

/-- The user holding `streakGam` (C4 scenario). -/
def streakUser : User :=
  { freshUser with gamification := some streakGam }

/-- Store holding `streakUser` (C4 scenario). -/
def streakStore : Store :=
  { users := [streakUser], roadmaps := [], activities := [], notifications := [] }

/-- A user whose profile is the flat mapping `{a: 1}` (C5 example). -/
def flatUser : User :=
  { userId := "u2", email := some "f@b.c", passwordHash := some "pw",
    profile := [("a", JVal.int 1)], createdAt := some "T", updatedAt := none,
    gamification := none, referrals := none }

/-- Store holding `flatUser` (C5 example). -/
def flatStore : Store :=
  { users := [flatUser], roadmaps := [], activities := [], notifications := [] }

/-- The profile update `{b: 2}` (C5 example). -/
def flatItem : ProfileItem :=
  { userId := "u2", profile := [("b", JVal.int 2)], updatedAt := "T1" }

/-- Helper: after a method's final write replaces the user list by
`[u for u in users if u.userId != uid] + [u1]`, looking up `uid` finds `u1`. -/
theorem find?_userId_write (l : List User) (uid : String) (u1 : User)
    (h : u1.userId = uid) :
    (l.filter (fun u => !(u.userId == uid)) ++ [u1]).find?
      (fun u => u.userId == uid) = some u1 := by
  rw [List.find?_append]
  have h1 : (l.filter (fun u => !(u.userId == uid))).find?
      (fun u => u.userId == uid) = none := by
    rw [List.find?_eq_none]
    intro x hx
    have hx2 := (List.mem_filter.mp hx).2
    simp only [Bool.not_eq_true'] at hx2
    simp [hx2]
  rw [h1]
  simp [List.find?_cons, h]

/-- C8: reading the store never fails: with a missing, unreadable or
unparseable backing file `_read_store` returns the minimal document
`{'users': [], 'roadmaps': []}` (so the first run self-initializes), and
with a parseable file it returns the parsed document. -/
theorem readStore_missing_defaults :
    readStore none = [("users", JVal.arr []), ("roadmaps", JVal.arr [])] ∧
    ∀ doc : JObj, readStore (some doc) = doc :=
  ⟨rfl, fun _ => rfl⟩

/-- C6: `create_user` never rejects a duplicate email: for every store and
email it removes every stored user carrying that email, appends the new
record, and afterwards exactly one user record carries the email; users with
other emails are all retained. -/
theorem createUser_email_unique (ctx : Ctx) (s : Store) (email password : String)
    (profile : JObj) :
    (createUser ctx s email password profile).1.users.countP
        (fun u => u.email == some email) = 1 ∧
    ∀ u ∈ s.users, u.email ≠ some email →
      u ∈ (createUser ctx s email password profile).1.users := by
  constructor
  · simp only [createUser, List.countP_append]
    have h0 : (s.users.filter (fun u => !(u.email == some email))).countP
        (fun u => u.email == some email) = 0 := by
      rw [List.countP_eq_zero]
      intro x hx
      have hx2 := (List.mem_filter.mp hx).2
      simp only [Bool.not_eq_true'] at hx2
      simp [hx2]
    rw [h0]
    simp [List.countP_cons]
  · intro u hu hne
    simp only [createUser]
    refine List.mem_append.mpr (Or.inl ?_)
    refine List.mem_filter.mpr ⟨hu, ?_⟩
    simp [hne]

/-- Closed instance of `createUser_email_unique`. -/
theorem createUser_email_unique_witness :
    (createUser ctx0 emptyStore "a@b.c" "pw" []).1.users.countP
        (fun u => u.email == some "a@b.c") = 1 :=
  (createUser_email_unique ctx0 emptyStore "a@b.c" "pw" []).1

/-- C10: `complete_activity` is atomic on not-found: with no activity
matching both ids it returns `False` and leaves the document untouched; with
a match it returns `True` and every matching record's status becomes
`"completed"`. -/
theorem completeActivity_atomic (ctx : Ctx) (s : Store) (userId activityId : String) :
    (s.activities.any (fun a => a.userId == userId && a.activityId == activityId) = false →
      completeActivity ctx s userId activityId = (s, false)) ∧
    (s.activities.any (fun a => a.userId == userId && a.activityId == activityId) = true →
      (completeActivity ctx s userId activityId).2 = true ∧
      ∀ a ∈ (completeActivity ctx s userId activityId).1.activities,
        a.userId = userId → a.activityId = activityId → a.status = "completed") := by
  constructor
  · intro h
    simp [completeActivity, h]
  · intro h
    refine ⟨by simp [completeActivity, h], ?_⟩
    intro a ha h1 h2
    simp only [completeActivity, h, if_true] at ha
    obtain ⟨b, hb, hfb⟩ := List.mem_map.mp ha
    by_cases hc : (b.userId == userId && b.activityId == activityId) = true
    · rw [if_pos hc] at hfb
      rw [← hfb]
    · rw [if_neg hc] at hfb
      subst hfb
      exact absurd (by simp [h1, h2]) hc

/-- Closed instance of `completeActivity_atomic`: completing the stored
pending activity succeeds. -/
theorem completeActivity_atomic_witness :
    (completeActivity ctx0 seStore "u1" "a1").2 = true :=
  ((completeActivity_atomic ctx0 seStore "u1" "a1").2 (by rfl)).1

/-- C2 (behavior the code actually has): awarding the same badge name twice
to the fresh user returns `True` then `False` and persists exactly one badge
entry of that name — the idempotence half of the claim — but the persisted
xp is 0, not 50: the +50 grant written by the inner `award_xp` call is
overwritten when `award_badge` finishes by writing the snapshot it took at
entry. -/
theorem awardBadge_idempotent_xp_lost :
    badgeOnce.2 = true ∧ badgeTwice.2 = false ∧
    (getUser badgeTwice.1 "u1").map
        (fun u => (u.gamification.getD emptyGam).badges.countP
          (fun b => b.name == "First Steps")) = some 1 ∧
    (getUser badgeTwice.1 "u1").map
        (fun u => (u.gamification.getD emptyGam).xp) = some 0 :=
  ⟨rfl, rfl, rfl, rfl⟩

/-- C7 (behavior the code actually has): redeeming a valid referral code
returns success and persists the referrer's count incremented to 1, but both
xp grants (+100 referrer, +50 referee) are lost — `use_referral_code`
finishes by writing the snapshot it took at entry, which overwrites the two
inner `award_xp` writes; an unknown code changes nothing and reports
failure. -/
theorem useReferralCode_rewards_lost :
    refRedeem.2 = true ∧
    (getUser refRedeem.1 "r1").map (fun u => u.referrals.map (fun r => r.count)) =
      some (some 1) ∧
    (getUser refRedeem.1 "r1").map (fun u => (u.gamification.getD emptyGam).xp) = some 0 ∧
    (getUser refRedeem.1 "n1").map (fun u => (u.gamification.getD emptyGam).xp) = some 0 ∧
    useReferralCode ctx0 refStore "n1" "nosuchcode" = (refStore, false) :=
  ⟨rfl, rfl, rfl, rfl, rfl⟩

/-- C3: `award_xp` for an existing user and a non-negative amount (every call
site passes a non-negative amount) persists `xp + amount`, so the persisted
xp never decreases; the persisted level is `xp // 100 + 1` (floor division);
and the level-up notification fires exactly when the recomputed level
exceeds the stored one. -/
theorem awardXp_monotone_level (ctx : Ctx) (s : Store) (userId : String)
    (amount : Int) (u : User) (hu : getUser s userId = some u)
    (hamt : 0 ≤ amount) :
    ∃ u' g, getUser (awardXp ctx s userId amount).store userId = some u' ∧
      u'.gamification = some g ∧
      g.xp = (u.gamification.getD emptyGam).xp + amount ∧
      (u.gamification.getD emptyGam).xp ≤ g.xp ∧
      g.level = Int.fdiv g.xp 100 + 1 ∧
      ((awardXp ctx s userId amount).notified = true ↔
        (u.gamification.getD emptyGam).level < Int.fdiv g.xp 100 + 1) := by
  have huid : u.userId = userId := by
    have := List.find?_some hu
    simpa using this
  simp only [awardXp, hu]
  refine ⟨{ u with
            updatedAt := some ctx.now,
            gamification := some ({ u.gamification.getD emptyGam with
                                    xp := (u.gamification.getD emptyGam).xp + amount,
                                    level := Int.fdiv ((u.gamification.getD emptyGam).xp + amount) 100 + 1 }) },
          { u.gamification.getD emptyGam with
            xp := (u.gamification.getD emptyGam).xp + amount,
            level := Int.fdiv ((u.gamification.getD emptyGam).xp + amount) 100 + 1 },
          ?_, rfl, rfl, ?_, rfl, ?_⟩
  · simp only [getUser]
    exact find?_userId_write s.users userId _ huid
  · exact le_add_of_nonneg_right hamt
  · simp

/-- Closed instance of `awardXp_monotone_level` at the fresh user and +50. -/
theorem awardXp_monotone_level_witness :
    ∃ u' g, getUser (awardXp ctx0 seStore "u1" 50).store "u1" = some u' ∧
      u'.gamification = some g ∧
      g.xp = (freshUser.gamification.getD emptyGam).xp + 50 ∧
      (freshUser.gamification.getD emptyGam).xp ≤ g.xp ∧
      g.level = Int.fdiv g.xp 100 + 1 ∧
      ((awardXp ctx0 seStore "u1" 50).notified = true ↔
        (freshUser.gamification.getD emptyGam).level < Int.fdiv g.xp 100 + 1) :=
  awardXp_monotone_level ctx0 seStore "u1" 50 freshUser rfl (by decide)

/-- Helper: looking up a key in a cons cell of an object. -/
theorem jget_cons (p : String × JVal) (rest : JObj) (k : String) :
    jget (p :: rest) k = if p.1 = k then some p.2 else jget rest k := by
  by_cases h : p.1 = k
  · simp [jget, List.find?_cons, h]
  · have hb : (p.1 == k) = false := by simp [h]
    simp [jget, List.find?_cons, hb, h]

/-- Helper: in the map rewriting key `k` to `(k, v)`, looking up `k` yields
`(k, v)` provided some entry carried key `k`. -/
theorem find?_map_jset_self (o : JObj) (k : String) (v : JVal)
    (h : o.any (fun p => p.1 == k) = true) :
    (o.map (fun p => if p.1 == k then (k, v) else p)).find? (fun p => p.1 == k)
      = some (k, v) := by
  induction o with
  | nil => simp at h
  | cons p rest ih =>
      by_cases hp : p.1 = k
      · rw [List.map_cons, show (if p.1 == k then (k, v) else p) = (k, v) from by simp [hp]]
        exact List.find?_cons_of_pos _ (by simp)
      · have hpb : (p.1 == k) = false := by simp [hp]
        have h2 : rest.any (fun q => q.1 == k) = true := by
          simpa [hpb] using h
        rw [List.map_cons, show (if p.1 == k then (k, v) else p) = p from by simp [hpb],
            List.find?_cons_of_neg _ (by simp [hpb])]
        exact ih h2

/-- Helper: rewriting key `k` does not change lookups of a different key. -/
theorem find?_map_jset_ne (o : JObj) (k : String) (v : JVal) (k2 : String)
    (hne : ¬ k2 = k) :
    (o.map (fun p => if p.1 == k then (k, v) else p)).find? (fun p => p.1 == k2)
      = o.find? (fun p => p.1 == k2) := by
  have hkk : (k == k2) = false := by
    simp only [beq_eq_false_iff_ne, ne_eq]
    exact fun hh => hne hh.symm
  induction o with
  | nil => rfl
  | cons p rest ih =>
      by_cases hp : p.1 = k
      · rw [List.map_cons, show (if p.1 == k then (k, v) else p) = (k, v) from by simp [hp],
            List.find?_cons_of_neg _ (by simp [hkk]),
            List.find?_cons_of_neg _ (by simp [hp, hkk])]
        exact ih
      · have hpb : (p.1 == k) = false := by simp [hp]
        rw [List.map_cons, show (if p.1 == k then (k, v) else p) = p from by simp [hpb]]
        by_cases hq : p.1 = k2
        · rw [List.find?_cons_of_pos _ (by simp [hq]), List.find?_cons_of_pos _ (by simp [hq])]
        · rw [List.find?_cons_of_neg _ (by simp [hq]), List.find?_cons_of_neg _ (by simp [hq])]
          exact ih

/-- Helper: Python `d[k] = v` followed by `d[k]` yields `v`. -/
theorem jget_jset_self (o : JObj) (k : String) (v : JVal) :
    jget (jset o k v) k = some v := by
  unfold jget jset
  by_cases h : o.any (fun p => p.1 == k) = true
  · rw [if_pos h, find?_map_jset_self o k v h]
    rfl
  · rw [if_neg h, List.find?_append]
    have h0 : o.find? (fun p => p.1 == k) = none := by
      rw [List.find?_eq_none]
      intro x hx hxk
      exact h (List.any_eq_true.mpr ⟨x, hx, hxk⟩)
    rw [h0]
    simp [List.find?_cons]

/-- Helper: Python `d[k] = v` leaves other keys' lookups unchanged. -/
theorem jget_jset_ne (o : JObj) (k : String) (v : JVal) (k2 : String)
    (hne : ¬ k2 = k) :
    jget (jset o k v) k2 = jget o k2 := by
  unfold jget jset
  by_cases h : o.any (fun p => p.1 == k) = true
  · rw [if_pos h, find?_map_jset_ne o k v k2 hne]
  · rw [if_neg h, List.find?_append]
    have h1 : ([(k, v)].find? (fun p => p.1 == k2)) = none := by
      have hkk : (k == k2) = false := by
        simp only [beq_eq_false_iff_ne, ne_eq]
        exact fun hh => hne hh.symm
      simp [List.find?_cons, hkk]
    rw [h1]
    cases o.find? (fun p => p.1 == k2) <;> rfl

/-- Helper: the lookup law of `dict.update`: a key present in `b` reads from
`b`, a key absent from `b` reads from `a` (for `b` without duplicate keys, as
any Python dict). -/
theorem jget_jmerge (a b : JObj) (hnd : (b.map Prod.fst).Nodup) (k : String) :
    jget (jmerge a b) k = Option.or (jget b k) (jget a k) := by
  induction b generalizing a with
  | nil => rfl
  | cons p rest ih =>
      rw [List.map_cons] at hnd
      have h1 : p.1 ∉ rest.map Prod.fst := (List.nodup_cons.mp hnd).1
      have h2 : (rest.map Prod.fst).Nodup := (List.nodup_cons.mp hnd).2
      have hstep : jmerge a (p :: rest) = jmerge (jset a p.1 p.2) rest := rfl
      rw [hstep, ih (jset a p.1 p.2) h2, jget_cons]
      by_cases hk : p.1 = k
      · subst hk
        have hrest : jget rest p.1 = none := by
          unfold jget
          rw [List.find?_eq_none.mpr]
          · rfl
          · intro x hx hxk
            exact absurd (List.mem_map.mpr ⟨x, hx, by simpa using hxk⟩) h1
        rw [hrest, jget_jset_self, if_pos rfl]
        rfl
      · rw [jget_jset_ne a p.1 p.2 k (fun hh => hk hh.symm), if_neg hk]

/-- C5 (amended): `save_user_profile` for an existing user merges one level
deep: every field of the user record left out of the item persists (email,
passwordHash, ...), and a lookup in the saved profile reads the item's
profile first and falls back to the stored profile — top-level profile keys
present in the update overwrite (nested mappings wholesale), omitted
top-level keys persist. -/
theorem saveUserProfile_shallow_merge (s : Store) (item : ProfileItem) (u : User)
    (hu : s.users.filter (fun x => x.userId == item.userId) = [u])
    (hnd : (item.profile.map Prod.fst).Nodup) :
    ∃ u', getUser (saveUserProfile s item) item.userId = some u' ∧
      u'.email = u.email ∧ u'.passwordHash = u.passwordHash ∧
      ∀ k, jget u'.profile k = Option.or (jget item.profile k) (jget u.profile k) := by
  simp only [saveUserProfile, hu, List.getLast?_singleton]
  refine ⟨{ u with
            userId := item.userId,
            profile := jmerge u.profile item.profile,
            updatedAt := some item.updatedAt },
          ?_, rfl, rfl, ?_⟩
  · simp only [getUser]
    exact find?_userId_write s.users item.userId _ rfl
  · intro k
    exact jget_jmerge u.profile item.profile hnd k

/-- Closed instance of `saveUserProfile_shallow_merge`: storing profile
`{a: 1}` and then saving profile `{b: 2}` keeps key `a` and adds key `b`. -/
theorem saveUserProfile_shallow_merge_witness :
    ∃ u', getUser (saveUserProfile flatStore flatItem) "u2" = some u' ∧
      u'.email = flatUser.email ∧ u'.passwordHash = flatUser.passwordHash ∧
      ∀ k, jget u'.profile k = Option.or (jget flatItem.profile k) (jget flatUser.profile k) :=
  saveUserProfile_shallow_merge flatStore flatItem flatUser rfl (by simp [flatItem])

/-- C5 (as stated, refuted): the claim calls the profile merge a deep merge
of nested mappings.  Storing profile `{a: {x: 1}}` and saving the update
`{a: {y: 2}}` persists `{a: {y: 2}}` — the nested mapping is replaced
wholesale and the omitted nested key `x` is lost — whereas the deep merge
the claim describes yields `{a: {x: 1, y: 2}}`. -/
theorem saveUserProfile_nested_overwrite :
    (getUser (saveUserProfile nestedStore nestedItem) "u1").map (fun u => u.profile) =
      some [("a", JVal.obj [("y", JVal.int 2)])] ∧
    claimedDeepMerge nestedUser.profile nestedItem.profile =
      [("a", JVal.obj [("x", JVal.int 1), ("y", JVal.int 2)])] ∧
    ([("a", JVal.obj [("y", JVal.int 2)])] : JObj) ≠
      [("a", JVal.obj [("x", JVal.int 1), ("y", JVal.int 2)])] := by
  refine ⟨rfl, ?_, by simp⟩
  simp [claimedDeepMerge, nestedUser, nestedItem, jget, jset, List.find?_cons]

/-- C4: `update_streak` for an existing user, on a host whose local date
equals the UTC date (the code mixes the two): a stored last-login date equal
to today returns without writing, leaving streak and store unchanged; a
stored date exactly one day back persists streak + 1; a stored date more
than one day back persists streak 1; no stored date (first-ever login)
persists streak 1.  On every writing path the stored last-login date becomes
today and the milestone badge award is triggered exactly when the new streak
is 7, 30 or 100. -/
theorem updateStreak_spec (ctx : Ctx) (s : Store) (userId : String) (u : User)
    (hu : getUser s userId = some u) (htz : ctx.todayLocal = ctx.todayUtc) :
    ((u.gamification.getD emptyGam).lastLoginDate = some ctx.todayUtc →
      (updateStreak ctx s userId).store = s ∧
      (updateStreak ctx s userId).gam = some (u.gamification.getD emptyGam)) ∧
    (∀ d, (u.gamification.getD emptyGam).lastLoginDate = some d →
      ctx.todayLocal - d = 1 →
      ∃ u' g, getUser (updateStreak ctx s userId).store userId = some u' ∧
        u'.gamification = some g ∧
        g.streak = (u.gamification.getD emptyGam).streak + 1 ∧
        g.lastLoginDate = some ctx.todayUtc ∧
        (updateStreak ctx s userId).badgeStreak =
          (if g.streak = 7 ∨ g.streak = 30 ∨ g.streak = 100 then some g.streak else none)) ∧
    (∀ d, (u.gamification.getD emptyGam).lastLoginDate = some d →
      1 < ctx.todayLocal - d →
      ∃ u' g, getUser (updateStreak ctx s userId).store userId = some u' ∧
        u'.gamification = some g ∧
        g.streak = 1 ∧
        g.lastLoginDate = some ctx.todayUtc ∧
        (updateStreak ctx s userId).badgeStreak = none) ∧
    ((u.gamification.getD emptyGam).lastLoginDate = none →
      ∃ u' g, getUser (updateStreak ctx s userId).store userId = some u' ∧
        u'.gamification = some g ∧
        g.streak = 1 ∧
        g.lastLoginDate = some ctx.todayUtc ∧
        (updateStreak ctx s userId).badgeStreak = none) := by
  have huid : u.userId = userId := by
    have := List.find?_some hu
    simpa using this
  refine ⟨?_, ?_, ?_, ?_⟩
  · intro hlast
    simp [updateStreak, hu, hlast]
  · intro d hlast h1
    have hne : (d == ctx.todayUtc) = false := by
      simp only [beq_eq_false_iff_ne, ne_eq]
      omega
    have heq1 : (ctx.todayLocal - d == 1) = true := by simp [h1]
    simp only [updateStreak, hu, hlast, hne, heq1, Bool.false_eq_true, if_false, if_true]
    refine ⟨{ u with
              updatedAt := some ctx.now,
              gamification := some ({ u.gamification.getD emptyGam with
                                      streak := (u.gamification.getD emptyGam).streak + 1,
                                      lastLoginDate := some ctx.todayUtc }) },
            { u.gamification.getD emptyGam with
              streak := (u.gamification.getD emptyGam).streak + 1,
              lastLoginDate := some ctx.todayUtc },
            ?_, rfl, rfl, rfl, ?_⟩
    · simp only [getUser]
      exact find?_userId_write s.users userId _ huid
    · simp [Bool.or_eq_true, beq_iff_eq, or_assoc]
  · intro d hlast h1
    have hne : (d == ctx.todayUtc) = false := by
      simp only [beq_eq_false_iff_ne, ne_eq]
      omega
    have heq1 : (ctx.todayLocal - d == 1) = false := by
      simp only [beq_eq_false_iff_ne, ne_eq]
      omega
    have hgt : ctx.todayLocal - d > 1 := h1
    simp only [updateStreak, hu, hlast, hne, heq1, Bool.false_eq_true, if_false,
               if_pos hgt]
    refine ⟨{ u with
              updatedAt := some ctx.now,
              gamification := some ({ u.gamification.getD emptyGam with
                                      streak := 1,
                                      lastLoginDate := some ctx.todayUtc }) },
            { u.gamification.getD emptyGam with
              streak := 1,
              lastLoginDate := some ctx.todayUtc },
            ?_, rfl, rfl, rfl, ?_⟩
    · simp only [getUser]
      exact find?_userId_write s.users userId _ huid
    · simp
  · intro hlast
    simp only [updateStreak, hu, hlast]
    refine ⟨{ u with
              updatedAt := some ctx.now,
              gamification := some ({ u.gamification.getD emptyGam with
                                      streak := 1,
                                      lastLoginDate := some ctx.todayUtc }) },
            { u.gamification.getD emptyGam with
              streak := 1,
              lastLoginDate := some ctx.todayUtc },
            ?_, rfl, rfl, rfl, ?_⟩
    · simp only [getUser]
      exact find?_userId_write s.users userId _ huid
    · simp

/-- Closed instance of `updateStreak_spec`: logging in one day after the
stored date with streak 6 persists streak 7 and triggers the milestone badge
award. -/
theorem updateStreak_spec_witness :
    ∃ u' g, getUser (updateStreak ctx0 streakStore "u1").store "u1" = some u' ∧
      u'.gamification = some g ∧
      g.streak = (streakUser.gamification.getD emptyGam).streak + 1 ∧
      g.lastLoginDate = some ctx0.todayUtc ∧
      (updateStreak ctx0 streakStore "u1").badgeStreak =
        (if g.streak = 7 ∨ g.streak = 30 ∨ g.streak = 100 then some g.streak else none) :=
  ((updateStreak_spec ctx0 streakStore "u1" streakUser rfl rfl).2.1) 19999 rfl (by decide)

/-- C9: `create_activities_for_role` drops exactly the user's pending
activities, keeps everything else (in particular the user's completed ones
and all other users' records), and appends 15 fresh activities — 5 quiz
variants for each of the 3 levels — all pending and owned by the user. -/
theorem createActivitiesForRole_spec (ctx : Ctx) (s : Store) (userId role : String) :
    ∃ news : List Activity,
      (createActivitiesForRole ctx s userId role).1.activities =
        s.activities.filter (fun a => !(a.userId == userId && a.status == "pending")) ++ news ∧
      news.length = 15 ∧
      (∀ a ∈ news, a.userId = userId ∧ a.status = "pending") ∧
      news.countP (fun a => a.level == "basic") = 5 ∧
      news.countP (fun a => a.level == "intermediate") = 5 ∧
      news.countP (fun a => a.level == "advanced") = 5 ∧
      ∀ a ∈ s.activities, ¬(a.userId = userId ∧ a.status = "pending") →
        a ∈ (createActivitiesForRole ctx s userId role).1.activities := by
  refine ⟨_, rfl, ?_, ?_, ?_, ?_, ?_, ?_⟩
  · rfl
  · intro a ha
    simp only [List.enum, List.mem_flatMap, List.mem_map] at ha
    obtain ⟨li, _, qn, _, rfl⟩ := ha
    exact ⟨rfl, rfl⟩
  · rfl
  · rfl
  · rfl
  · intro a ha hna
    refine List.mem_append.mpr (Or.inl (List.mem_filter.mpr ⟨ha, ?_⟩))
    by_cases h1 : a.userId = userId
    · have h2 : ¬ a.status = "pending" := fun h2 => hna ⟨h1, h2⟩
      simp [h1, h2]
    · simp [h1]

/-- Closed instance of `createActivitiesForRole_spec` at the empty store. -/
theorem createActivitiesForRole_spec_witness :
    ∃ news : List Activity,
      (createActivitiesForRole ctx0 emptyStore "u1" "teacher").1.activities =
        emptyStore.activities.filter (fun a => !(a.userId == "u1" && a.status == "pending")) ++ news ∧
      news.length = 15 ∧
      (∀ a ∈ news, a.userId = "u1" ∧ a.status = "pending") ∧
      news.countP (fun a => a.level == "basic") = 5 ∧
      news.countP (fun a => a.level == "intermediate") = 5 ∧
      news.countP (fun a => a.level == "advanced") = 5 ∧
      ∀ a ∈ emptyStore.activities, ¬(a.userId = "u1" ∧ a.status = "pending") →
        a ∈ (createActivitiesForRole ctx0 emptyStore "u1" "teacher").1.activities :=
  createActivitiesForRole_spec ctx0 emptyStore "u1" "teacher"

/-- Helper: every role in the quiz dataset has at least one level, every
level at least one variant, and every variant at least one question. -/
theorem dataset_wf :
    quizzesData.all (fun rl => !rl.2.isEmpty &&
      rl.2.all (fun lv => !lv.2.isEmpty &&
        lv.2.all (fun qz => !qz.questions.isEmpty))) = true := rfl

/-- Helper: the cycling variant selection picks an element of the list. -/
theorem pickVariant_mem (ql : List Quiz) (variant : Int) (h : ¬ ql = []) :
    pickVariant ql variant ∈ ql := by
  unfold pickVariant
  simp only [Int.ofNat_eq_coe]
  have hlen : 0 < ql.length := List.length_pos.mpr h
  have hpos : (0 : Int) < (ql.length : Int) := by exact_mod_cast hlen
  have hmod : Int.emod (variant - 1) (ql.length : Int) < (ql.length : Int) :=
    Int.emod_lt_of_pos _ hpos
  have hnn : 0 ≤ Int.emod (variant - 1) (ql.length : Int) :=
    Int.emod_nonneg _ (by omega)
  have hidx : (Int.emod (variant - 1) (ql.length : Int)).toNat < ql.length := by
    omega
  rw [List.getD_eq_getElem?_getD, List.getElem?_eq_getElem hidx]
  simp only [Option.getD_some]
  exact List.getElem_mem _

/-- Helper: a list with `isEmpty = false` is not the empty list. -/
theorem ne_nil_of_isEmpty_eq_false {A : Type} {l : List A}
    (h : l.isEmpty = false) : ¬ l = [] := by
  cases l <;> simp_all

/-- Helper: the quiz the resolution core returns always has at least one
question (every dataset quiz is non-empty, and the generic fallback has
five). -/
theorem resolveQuiz_questions_ne_nil (role level : String) (variant : Int) :
    ¬ (resolveQuiz role level variant).questions = [] := by
  unfold resolveQuiz
  cases hfr : quizzesData.find? (fun p => pyIn p.1 role || pyIn role p.1) with
  | none => simp [defaultQuiz, mkQuestions, List.enum]
  | some rl =>
      have hrl : rl ∈ quizzesData := List.mem_of_find?_eq_some hfr
      have h1 := List.all_eq_true.mp dataset_wf rl hrl
      simp only [Bool.and_eq_true, List.all_eq_true, Bool.not_eq_true'] at h1
      cases hfl : rl.2.find? (fun lv => lv.1 == level) with
      | some lv =>
          simp only [hfl]
          have hlv : lv ∈ rl.2 := List.mem_of_find?_eq_some hfl
          have h2 := h1.2 lv hlv
          have hq := pickVariant_mem lv.2 variant (ne_nil_of_isEmpty_eq_false h2.1)
          exact ne_nil_of_isEmpty_eq_false (h2.2 _ hq)
      | none =>
          simp only [hfl]
          cases hh : rl.2.head? with
          | some lv0 =>
              simp only [hh]
              have hlv : lv0 ∈ rl.2 := by
                cases hrl2 : rl.2 with
                | nil => rw [hrl2] at hh; simp at hh
                | cons x xs =>
                    rw [hrl2] at hh
                    simp only [List.head?_cons, Option.some.injEq] at hh
                    rw [← hh]
                    exact List.mem_cons_self x xs
              have h2 := h1.2 lv0 hlv
              have hq := pickVariant_mem lv0.2 variant (ne_nil_of_isEmpty_eq_false h2.1)
              exact ne_nil_of_isEmpty_eq_false (h2.2 _ hq)
          | none =>
              simp only [hh]
              simp [defaultQuiz, mkQuestions, List.enum]

/-- Helper: `_sample_quiz` always returns a quiz with at least one
question. -/
theorem sampleQuiz_questions_ne_nil (role level : String) (variant : Int) :
    ¬ (sampleQuiz role level variant).questions = [] := by
  unfold sampleQuiz
  exact resolveQuiz_questions_ne_nil _ _ _

/-- C1 (amended): for an activity present in the store, `grade_quiz` returns
`score = floor(100 * correct / max(1, total))` over the resolved quiz's
questions (Python truncates with `int(...)`; for the question counts that
occur — 4, 5 or 6 — the float computation equals exact floor division),
persists on every stored activity with that id the score and the status
`"completed"` iff `score ≥ 70` (else `"pending"`), and yields 100 when every
question is answered with its correct index and 0 when none is. -/
theorem gradeQuiz_floor_spec (ctx : Ctx) (s : Store) (activityId : String)
    (answersMap : List (String × Int)) (act : Activity) (quiz : Quiz)
    (h : getQuizForActivity s activityId = some (act, quiz)) :
    (gradeQuiz ctx s activityId answersMap).2 =
      some { score := 100 * quiz.questions.countP (answeredRight answersMap) /
                        max 1 quiz.questions.length,
             total := quiz.questions.length } ∧
    (∀ b ∈ (gradeQuiz ctx s activityId answersMap).1.activities,
      b.activityId = activityId →
      b.lastScore = some (Int.ofNat (100 * quiz.questions.countP (answeredRight answersMap) /
                            max 1 quiz.questions.length)) ∧
      b.status = (if 70 ≤ 100 * quiz.questions.countP (answeredRight answersMap) /
                        max 1 quiz.questions.length then "completed" else "pending")) ∧
    ((∀ q ∈ quiz.questions, answeredRight answersMap q = true) →
      100 * quiz.questions.countP (answeredRight answersMap) /
        max 1 quiz.questions.length = 100) ∧
    ((∀ q ∈ quiz.questions, answeredRight answersMap q = false) →
      100 * quiz.questions.countP (answeredRight answersMap) /
        max 1 quiz.questions.length = 0) := by
  have hne : ¬ quiz.questions = [] := by
    unfold getQuizForActivity at h
    cases hfa : s.activities.find? (fun a => a.activityId == activityId) with
    | none => rw [hfa] at h; simp at h
    | some a0 =>
        rw [hfa] at h
        simp only [Option.some.injEq, Prod.mk.injEq] at h
        rw [← h.2]
        exact sampleQuiz_questions_ne_nil _ _ _
  refine ⟨?_, ?_, ?_, ?_⟩
  · simp only [gradeQuiz, h]
  · intro b hb h2
    simp only [gradeQuiz, h] at hb
    obtain ⟨c, hc, hfc⟩ := List.mem_map.mp hb
    by_cases hcid : (c.activityId == activityId) = true
    · rw [if_pos hcid] at hfc
      rw [← hfc]
      exact ⟨rfl, rfl⟩
    · rw [if_neg hcid] at hfc
      subst hfc
      exact absurd (by simp [h2]) hcid
  · intro hall
    have hcnt : quiz.questions.countP (answeredRight answersMap) =
        quiz.questions.length :=
      List.countP_eq_length.mpr (fun q hq => hall q hq)
    have hL : 0 < quiz.questions.length := List.length_pos.mpr hne
    rw [hcnt, Nat.max_eq_right hL]
    exact Nat.mul_div_cancel _ hL
  · intro hnone
    have hcnt : quiz.questions.countP (answeredRight answersMap) = 0 :=
      List.countP_eq_zero.mpr (fun q hq => by simp [hnone q hq])
    rw [hcnt]
    simp

/-- Closed instance of `gradeQuiz_floor_spec`: grading the stored
software-engineer basic activity with the answers map `{q1: 0}` returns the
floor score over that quiz's questions. -/
theorem gradeQuiz_floor_spec_witness :
    (gradeQuiz ctx0 seStore "a1" [("q1", 0)]).2 =
      some { score := 100 * (sampleQuiz "software engineer" "basic" 1).questions.countP
                        (answeredRight [("q1", 0)]) /
                      max 1 (sampleQuiz "software engineer" "basic" 1).questions.length,
             total := (sampleQuiz "software engineer" "basic" 1).questions.length } :=
  (gradeQuiz_floor_spec ctx0 seStore "a1" [("q1", 0)] seAct
    (sampleQuiz "software engineer" "basic" 1) rfl).1

/-- C1 (as stated, refuted): the claim's `round(100 * correct/total)` is not
what the code computes.  The software-engineer basic quiz has 6 questions;
answering exactly one correctly makes the code score `int(100 * 1/6) = 16`,
while rounding 100/6 to the nearest integer gives 17. -/
theorem gradeQuiz_trunc_vs_round :
    (gradeQuiz ctx0 seStore "a1" [("q1", 0)]).2 = some { score := 16, total := 6 } ∧
    (sampleQuiz "software engineer" "basic" 1).questions.countP
      (answeredRight [("q1", 0)]) = 1 ∧
    roundNearest 1 6 = 17 ∧ (16 : Nat) ≠ 17 :=
  ⟨rfl, rfl, rfl, by decide⟩
